import Mathlib

/-!
Shallow embedding of the daily-challenge game server of this repository:
the main iteration in `src/server.js` and the earlier iterations in
`src/unnamed/part_000` and `src/unnamed/part_001`.

Modelling decisions:
* JS in-memory objects (`challengeStore.playerProgress`, `challengeStore.sessions`)
  become insertion-ordered association lists over `String` keys.
* JS numbers holding progress counters and deltas become `Int`
  (a request body may carry any number, including a negative one).
* `Math.random()` draws become an explicit stream `r : Nat -> Nat`
  taken modulo the JS bound, and `Date.now()` an explicit `now : Nat`.
* External collaborators (nacl signature check, base58 public-key decoding,
  Honeycomb XP/badge/payout calls) become explicit parameters; a JS `throw`
  from a collaborator is an `Except.error`, caught exactly where the source
  has `try`/`catch`.
* JS aliasing matters and is modelled faithfully: a progress record fetched
  from the store is mutated in place, so updates to a record that already
  exists in the store persist, while a freshly created default record
  persists only where the source explicitly assigns it back
  (`part_000` line 173 does; `server.js` and `part_001` do not).
-/

/-- Association-list lookup, modelling JS object property access
(first matching key wins). -/
def lookupA {α : Type} : List (String × α) → String → Option α
  | [], _ => none
  | p :: m, k => if p.1 == k then some p.2 else lookupA m k

/-- Association-list update, modelling JS object property assignment:
an existing key is overwritten in place, a new key is appended. -/
def insertA {α : Type} : List (String × α) → String → α → List (String × α)
  | [], k, v => [(k, v)]
  | p :: m, k, v => if p.1 == k then (k, v) :: m else p :: insertA m k v

/-- A daily challenge, as produced by `generateDailyChallenges`. -/
structure Challenge where
  id : String
  verb : String
  target : String
  amount : Nat
  reward : Nat
  badgeIndex : Nat
deriving DecidableEq

/-- A per-wallet, per-challenge progress record
(`{ completed: 0, claimed: false }` in the source). -/
structure ProgressRecord where
  completed : Int
  claimed : Bool
deriving DecidableEq

/-- A session stored by `POST /verify-session` in `challengeStore.sessions`. -/
structure Session where
  walletAddress : String
  verifiedAt : String
  signature : String
  accessToken : String
deriving DecidableEq

/-- The mutable in-memory state (`challengeStore` plus its `sessions` field). -/
structure ChallengeStore where
  currentDate : String
  challenges : List Challenge
  playerProgress : List (String × List (String × ProgressRecord))
  sessions : List (String × Session)
deriving DecidableEq

/-- Outcome of a request handler: the JSON value on success, or the
`res.status(code).json({error})` taken on a caught exception. -/
inductive HttpResult (α : Type) where
  | ok (value : α)
  | err (status : Nat) (message : String)
deriving DecidableEq

/-- True exactly on the error outcome. -/
def HttpResult.isErr {α : Type} : HttpResult α → Bool
  | .ok _ => false
  | .err _ _ => true

/-- Verb pool of `generateDailyChallenges` in `server.js`. -/
def verbs : List String := ["Defeat", "Collect", "Complete"]

/-- Target pool of `generateDailyChallenges` in `server.js`. -/
def targets : List String := ["enemies", "coins", "levels"]

/-- One challenge of the fresh daily batch; `r` supplies the successive
`Math.floor(Math.random() * k)` draws already reduced modulo `k`. -/
def mkChallenge (now : Nat) (r : Nat → Nat) (i : Nat) : Challenge :=
  { id := "daily_" ++ toString now ++ "_" ++ toString i
    verb := verbs.getD (r (4 * i) % verbs.length) ("")
    target := targets.getD (r (4 * i + 1) % targets.length) ("")
    amount := r (4 * i + 2) % 5 + 3
    reward := (r (4 * i + 3) % 5 + 3) * 10
    badgeIndex := i }

/-- `generateDailyChallenges` from `server.js` (lines 314-330): a batch of
exactly 3 challenges with independently randomized amount and reward. -/
def generateDailyChallenges (now : Nat) (r : Nat → Nat) : List Challenge :=
  (List.range 3).map (mkChallenge now r)

/-- The rotation check at the top of `GET /challenges` (`server.js` 333-345):
on a new calendar day it regenerates the challenges and clears
`playerProgress`; note that `challengeStore.sessions` is not touched. -/
def rotateChallenges (st : ChallengeStore) (today : String) (now : Nat) (r : Nat → Nat) :
    ChallengeStore :=
  if st.currentDate == today then st
  else { st with currentDate := today
                 challenges := generateDailyChallenges now r
                 playerProgress := [] }

/-- `GET /challenges`: run the rotation check, respond with the challenge list. -/
def getChallenges (st : ChallengeStore) (today : String) (now : Nat) (r : Nat → Nat) :
    ChallengeStore × List Challenge :=
  let st1 := rotateChallenges st today now r
  (st1, st1.challenges)

/-- Result of `GET /check-session` (`server.js` 396-405):
`res.json(session || { error: "Not linked" })`. -/
inductive SessionLookup where
  | found (s : Session)
  | notLinked
deriving DecidableEq

/-- `GET /check-session`: look the token up in `challengeStore.sessions`. -/
def checkSession (st : ChallengeStore) (token : String) : SessionLookup :=
  match lookupA st.sessions token with
  | some s => SessionLookup.found s
  | none => SessionLookup.notLinked

/-- External cryptographic collaborators of `verifySignature` and
`POST /verify-session`: base58 public-key decoding (a JS `throw` is `none`),
the comma-separated signature byte parse (total in JS: `Number` yields `NaN`,
`Uint8Array.from` maps it to a byte), UTF-8 encoding, and
`nacl.sign.detached.verify`, which throws on byte arrays of the wrong size. -/
structure CryptoEnv where
  decodePublicKey : String → Option (List Nat)
  parseSignature : String → List Nat
  encode : String → List Nat
  naclVerify : List Nat → List Nat → List Nat → Except String Bool

/-- `verifySignature` from `server.js` (lines 25-44): the whole body is
wrapped in `try`/`catch` and any fault yields `false`. -/
def verifySignature (env : CryptoEnv) (message signature publicKey : String) : Bool :=
  match env.decodePublicKey publicKey with
  | none => false
  | some pk =>
    match env.naclVerify (env.encode message) (env.parseSignature signature) pk with
    | Except.error _ => false
    | Except.ok b => b

/-- Request body of `POST /verify-session`. -/
structure VerifyReq where
  sessionToken : String
  walletAddress : String
  signature : String
  accessToken : String
deriving DecidableEq

/-- The message that `POST /verify-session` checks the signature against. -/
def sessionMessage (tok : String) : String :=
  "Verify wallet for game session: " ++ tok

/-- `POST /verify-session` (`server.js` 434-483): verify the signature over
`sessionMessage req.sessionToken`; on success store a `Session` in
`challengeStore.sessions` under the request's own `sessionToken`; any
failure is caught and answered with `res.status(400).json({error})`,
leaving the store untouched. -/
def verifySession (env : CryptoEnv) (st : ChallengeStore) (nowIso : String)
    (req : VerifyReq) : ChallengeStore × HttpResult Bool :=
  match env.decodePublicKey req.walletAddress with
  | none => (st, .err 400 ("Invalid public key"))
  | some pk =>
    match env.naclVerify (env.encode (sessionMessage req.sessionToken))
        (env.parseSignature req.signature) pk with
    | Except.error e => (st, .err 400 e)
    | Except.ok verified =>
      if verified then
        let sess : Session :=
          { walletAddress := req.walletAddress
            verifiedAt := nowIso
            signature := req.signature
            accessToken := req.accessToken }
        ({ st with sessions := insertA st.sessions req.sessionToken sess }, .ok true)
      else (st, .err 400 ("Invalid signature"))

/-- Request body of `POST /progress`. -/
structure ProgressReq where
  walletAddress : String
  challengeId : String
  progress : Int
  sessionToken : Option String
deriving DecidableEq

/-- `if (!challengeStore.playerProgress[walletAddress]) ... = {}`:
create the wallet's empty progress map when absent. -/
def ensureWallet (st : ChallengeStore) (w : String) : ChallengeStore :=
  match lookupA st.playerProgress w with
  | some _ => st
  | none => { st with playerProgress := insertA st.playerProgress w [] }

/-- The wallet's progress map (empty when the wallet is unknown). -/
def walletMap (st : ChallengeStore) (w : String) : List (String × ProgressRecord) :=
  (lookupA st.playerProgress w).getD []

/-- Write a progress record back into the store under `(w, c)`. -/
def storeRecord (st : ChallengeStore) (w c : String) (rec : ProgressRecord) :
    ChallengeStore :=
  { st with playerProgress := insertA st.playerProgress w (insertA (walletMap st w) c rec) }

/-- `POST /progress` from `server.js` (lines 796-842).  No catalog check and
no clamp: `playerProgress.completed += progress`.  A record fetched from the
store is an alias, so its update persists; the lazily created default record
is never assigned back into the store.  `xpFail` tells whether the on-chain
XP call (performed after the local mutation) throws, turning the response
into a 400 while the already-performed mutation stays. -/
def progressMain (xpFail : Bool) (st : ChallengeStore) (req : ProgressReq) :
    ChallengeStore × HttpResult ProgressRecord :=
  let sessionOk :=
    match req.sessionToken with
    | none => true
    | some tok =>
      match lookupA st.sessions tok with
      | none => false
      | some s => s.walletAddress == req.walletAddress
  if sessionOk then
    let st1 := ensureWallet st req.walletAddress
    let existed := (lookupA (walletMap st1 req.walletAddress) req.challengeId).isSome
    let pp := (lookupA (walletMap st1 req.walletAddress) req.challengeId).getD
      { completed := 0, claimed := false }
    let pp1 : ProgressRecord := { pp with completed := pp.completed + req.progress }
    let st2 := if existed then storeRecord st1 req.walletAddress req.challengeId pp1 else st1
    if xpFail then (st2, .err 400 ("xp update failed")) else (st2, .ok pp1)
  else (st, .err 400 ("Invalid session"))

/-- `POST /progress` from `src/unnamed/part_001` (lines 153-180): requires the
challenge to be in the active catalog, adds the delta without clamping, and
sets `claimed := true` as soon as the sum reaches the amount.  Only a record
that already existed in the store persists (aliasing; there is no explicit
store-back in this iteration). -/
def progressV1 (st : ChallengeStore) (w c : String) (delta : Int) :
    ChallengeStore × HttpResult ProgressRecord :=
  match st.challenges.find? (fun ch => ch.id == c) with
  | none => (st, .err 400 ("Challenge not found"))
  | some ch =>
    let st1 := ensureWallet st w
    let existed := (lookupA (walletMap st1 w) c).isSome
    let pp := (lookupA (walletMap st1 w) c).getD { completed := 0, claimed := false }
    let pp1 : ProgressRecord := { pp with completed := pp.completed + delta }
    let pp2 : ProgressRecord :=
      if (ch.amount : Int) ≤ pp1.completed ∧ pp1.claimed = false then
        { pp1 with claimed := true }
      else pp1
    let st2 := if existed then storeRecord st1 w c pp2 else st1
    (st2, .ok pp2)

/-- `POST /progress` from `src/unnamed/part_000` (lines 142-183): like
`progressV1`, but on completion it first awaits the external badge and stats
calls (`extOk` tells whether they succeed) and it always assigns the record
back into the store (line 173), so even lazily created records persist.  When
the external call throws, the handler answers 400 after the unclamped
increment has already hit any pre-existing (aliased) record. -/
def progressV0 (extOk : Bool) (st : ChallengeStore) (w c : String) (delta : Int) :
    ChallengeStore × HttpResult ProgressRecord :=
  match st.challenges.find? (fun ch => ch.id == c) with
  | none => (st, .err 400 ("Challenge not found"))
  | some ch =>
    let st1 := ensureWallet st w
    let existed := (lookupA (walletMap st1 w) c).isSome
    let pp := (lookupA (walletMap st1 w) c).getD { completed := 0, claimed := false }
    let pp1 : ProgressRecord := { pp with completed := pp.completed + delta }
    if (ch.amount : Int) ≤ pp1.completed ∧ pp1.claimed = false then
      if extOk then
        let pp2 : ProgressRecord := { pp1 with claimed := true }
        (storeRecord st1 w c pp2, .ok pp2)
      else
        ((if existed then storeRecord st1 w c pp1 else st1), .err 400 ("award failed"))
    else
      (storeRecord st1 w c pp1, .ok pp1)

/-- Mark the given challenge ids of wallet `w` as claimed. -/
def markClaimed (st : ChallengeStore) (w : String) (keys : List String) : ChallengeStore :=
  let wmap := (walletMap st w).map
    (fun p => if keys.contains p.1 then (p.1, { p.2 with claimed := true }) else p)
  { st with playerProgress := insertA st.playerProgress w wmap }

/-- `POST /claim` from `src/unnamed/part_000` (lines 186-220): select the
wallet's records with `progress.completed && !progress.claimed` (JS
truthiness: any nonzero counter passes), fail with 400 `No rewards to claim`
when none, otherwise sum the matching catalog rewards, await the external
payout (`distOk`), and only then mark the selected records claimed. -/
def claimV0 (distOk : Bool) (st : ChallengeStore) (w : String) :
    ChallengeStore × HttpResult Nat :=
  let completions := (walletMap st w).filter
    (fun p => (p.2.completed != 0) && (!p.2.claimed))
  if completions.isEmpty then (st, .err 400 ("No rewards to claim"))
  else
    let totalReward := completions.foldl
      (fun s p =>
        s + (((st.challenges.find? (fun ch => ch.id == p.1)).map Challenge.reward).getD 0))
      0
    if distOk then (markClaimed st w (completions.map Prod.fst), .ok totalReward)
    else (st, .err 400 ("reward distribution failed"))

theorem lookupA_insertA_self {α : Type} (m : List (String × α)) (k : String) (v : α) :
    lookupA (insertA m k v) k = some v := by
  induction m with
  | nil => simp [insertA, lookupA]
  | cons p m ih =>
    by_cases hp : p.1 == k
    · simp [insertA, lookupA, hp]
    · simp [insertA, lookupA, hp, ih]

/-- C1 counterexample: with challenge amount 3 and an existing record at
completed 1, a report of delta 4 through the cited `/progress` handler stores
completed 5 (and even flips `claimed`), not `min(1 + 4, 3) = 3`: the handler
does not clamp. -/
theorem C1_counterexample :
    (lookupA ((lookupA (progressV1
        { currentDate := "d1"
          challenges := [{ id := "c1", verb := "Defeat", target := "enemies",
                           amount := 3, reward := 30, badgeIndex := 0 }]
          playerProgress := [("W1", [("c1", { completed := 1, claimed := false })])]
          sessions := [] } ("W1") ("c1") 4).1.playerProgress ("W1")).getD []) ("c1")
      = some { completed := 5, claimed := true })
    ∧ (5 : Int) ≠ min (1 + 4) 3 := by decide

/-- C2 failing input: wallet `W1` holds a single record with completed 1 on a
challenge of amount 3 — not completed-unclaimed in the spec's sense — yet
`POST /claim` succeeds with reward 30 and marks the record claimed, instead
of failing with `No rewards to claim` and mutating nothing: the selection
uses JS truthiness of `completed`, not completion. -/
theorem C2_failing :
    (claimV0 true
      { currentDate := "d1"
        challenges := [{ id := "c1", verb := "Defeat", target := "enemies",
                         amount := 3, reward := 30, badgeIndex := 0 }]
        playerProgress := [("W1", [("c1", { completed := 1, claimed := false })])]
        sessions := [] } ("W1")
    = ({ currentDate := "d1"
         challenges := [{ id := "c1", verb := "Defeat", target := "enemies",
                          amount := 3, reward := 30, badgeIndex := 0 }]
         playerProgress := [("W1", [("c1", { completed := 1, claimed := true })])]
         sessions := [] }, HttpResult.ok 30))
    ∧ (1 : Int) ≠ ((3 : Nat) : Int) := by decide

/-- C3 counterexample: a progress report that raises completed exactly to the
challenge amount returns (and stores) the record with `claimed = true`, not
`claimed = false`: the cited `/progress` handlers flip the flag themselves. -/
theorem C3_counterexample :
    ((progressV1
        { currentDate := "d1"
          challenges := [{ id := "c1", verb := "Defeat", target := "enemies",
                           amount := 3, reward := 30, badgeIndex := 0 }]
          playerProgress := [("W1", [("c1", { completed := 0, claimed := false })])]
          sessions := [] } ("W1") ("c1") 3).2
      = HttpResult.ok { completed := 3, claimed := true })
    ∧ ((progressV1
        { currentDate := "d1"
          challenges := [{ id := "c1", verb := "Defeat", target := "enemies",
                           amount := 3, reward := 30, badgeIndex := 0 }]
          playerProgress := [("W1", [("c1", { completed := 0, claimed := false })])]
          sessions := [] } ("W1") ("c1") 3).2
      = HttpResult.ok { completed := 3, claimed := false } → False) := by decide

/-- C4 counterexample: crossing a day boundary, the rotation check clears
`playerProgress` and installs 3 fresh challenges, but the session stored
before the rotation survives and `/check-session` still returns it instead
of `Not linked`. -/
theorem C4_counterexample :
    (let st : ChallengeStore :=
      { currentDate := "Mon Jan 05 2026"
        challenges := []
        playerProgress := [("W1", [("c1", { completed := 2, claimed := false })])]
        sessions := [("tok1", { walletAddress := "W1", verifiedAt := "t0",
                                signature := "s", accessToken := "a" })] }
    let st1 := rotateChallenges st ("Tue Jan 06 2026") 7 (fun _ => 0)
    st1.playerProgress = [] ∧ st1.challenges.length = 3
    ∧ checkSession st1 ("tok1")
        = SessionLookup.found { walletAddress := "W1", verifiedAt := "t0",
                                signature := "s", accessToken := "a" }
    ∧ checkSession st1 ("tok1") ≠ SessionLookup.notLinked) := by decide

/-- C7 failing input: a record with completed 2 on a challenge of amount 5 is
partial, yet `POST /claim` pays its full reward 40 and marks it claimed:
records with `completed < amount` are paid out and marked. -/
theorem C7_failing :
    (claimV0 true
      { currentDate := "d2"
        challenges := [{ id := "c7", verb := "Collect", target := "coins",
                         amount := 5, reward := 40, badgeIndex := 1 }]
        playerProgress := [("W2", [("c7", { completed := 2, claimed := false })])]
        sessions := [] } ("W2")
    = ({ currentDate := "d2"
         challenges := [{ id := "c7", verb := "Collect", target := "coins",
                          amount := 5, reward := 40, badgeIndex := 1 }]
         playerProgress := [("W2", [("c7", { completed := 2, claimed := true })])]
         sessions := [] }, HttpResult.ok 40))
    ∧ (2 : Int) < ((5 : Nat) : Int) := by decide

/-- C8 failing input: the first report for a fresh `(wallet, challenge)` pair
through the `server.js` `/progress` handler answers with completed 2, but the
lazily created record is never written back: the wallet's stored map stays
empty and an identical second report again answers 2, not 4. -/
theorem C8_failing :
    (let st : ChallengeStore :=
      { currentDate := "d3"
        challenges := [{ id := "c1", verb := "Defeat", target := "enemies",
                         amount := 3, reward := 30, badgeIndex := 0 }]
        playerProgress := []
        sessions := [] }
    let req : ProgressReq :=
      { walletAddress := "W1", challengeId := "c1", progress := 2, sessionToken := none }
    (progressMain false st req).2 = HttpResult.ok { completed := 2, claimed := false }
    ∧ (progressMain false st req).1.playerProgress = [("W1", [])]
    ∧ (progressMain false (progressMain false st req).1 req).2
        = HttpResult.ok { completed := 2, claimed := false }) := by decide

/-- C9 failing input: the `server.js` `/progress` handler performs no catalog
check: a report against a challenge id absent from the active set answers
200 with the incremented record instead of `400 Challenge not found`, and it
still mutates the store by creating the wallet's (empty) progress map. -/
theorem C9_failing :
    (let st : ChallengeStore :=
      { currentDate := "d4"
        challenges := [{ id := "real", verb := "Defeat", target := "enemies",
                         amount := 3, reward := 30, badgeIndex := 0 }]
        playerProgress := []
        sessions := [] }
    let req : ProgressReq :=
      { walletAddress := "W1", challengeId := "ghost", progress := 3, sessionToken := none }
    st.challenges.find? (fun ch => ch.id == ("ghost")) = none
    ∧ (progressMain false st req).2 = HttpResult.ok { completed := 3, claimed := false }
    ∧ (progressMain false st req).2 ≠ HttpResult.err 400 ("Challenge not found")
    ∧ (progressMain false st req).1 ≠ st) := by decide

/-- C10 counterexample: on two successful confirmations that differ only in
the client-chosen `sessionToken`, the session is stored under exactly that
client-supplied token each time — the token is taken from the request, not
minted by the server. -/
theorem C10_counterexample :
    (let env : CryptoEnv :=
      { decodePublicKey := fun _ => some [1]
        parseSignature := fun _ => []
        encode := fun _ => []
        naclVerify := fun _ _ _ => Except.ok true }
    let st : ChallengeStore :=
      { currentDate := "d5", challenges := [], playerProgress := [], sessions := [] }
    (verifySession env st ("t1")
        { sessionToken := "TOKA", walletAddress := "W", signature := "s",
          accessToken := "a" }).1.sessions
      = [("TOKA", { walletAddress := "W", verifiedAt := "t1",
                    signature := "s", accessToken := "a" })]
    ∧ (verifySession env st ("t1")
        { sessionToken := "TOKB", walletAddress := "W", signature := "s",
          accessToken := "a" }).1.sessions
      = [("TOKB", { walletAddress := "W", verifiedAt := "t1",
                    signature := "s", accessToken := "a" })]) := by decide

/-- C1 amended: `POST /progress` adds the delta to the stored counter without
clamping — an existing record `(w, c)` is stored back with
`completed + delta`, which for a non-negative delta never decreases but can
exceed the challenge amount. -/
theorem C1_theorem (st : ChallengeStore) (w c : String) (delta : Int)
    (wmap : List (String × ProgressRecord)) (pp : ProgressRecord)
    (hw : lookupA st.playerProgress w = some wmap)
    (hc : lookupA wmap c = some pp) :
    lookupA ((lookupA ((progressMain false st
        { walletAddress := w, challengeId := c, progress := delta,
          sessionToken := none }).1.playerProgress) w).getD []) c
      = some { completed := pp.completed + delta, claimed := pp.claimed }
    ∧ (0 ≤ delta → pp.completed ≤ pp.completed + delta) := by
  constructor
  · simp [progressMain, ensureWallet, walletMap, hw, hc, storeRecord,
      lookupA_insertA_self]
  · intro h
    omega

/-- C1 witness: concrete run of the amended statement. -/
theorem C1_theorem_witness :
    lookupA ((lookupA ((progressMain false
        { currentDate := "dw1", challenges := [],
          playerProgress := [("W1", [("c1", { completed := 1, claimed := false })])],
          sessions := [] }
        { walletAddress := "W1", challengeId := "c1", progress := 2,
          sessionToken := none }).1.playerProgress) ("W1")).getD []) ("c1")
      = some { completed := (1 : Int) + 2, claimed := false }
    ∧ ((0 : Int) ≤ 2 → (1 : Int) ≤ 1 + 2) :=
  C1_theorem
    { currentDate := "dw1", challenges := [],
      playerProgress := [("W1", [("c1", { completed := 1, claimed := false })])],
      sessions := [] }
    ("W1") ("c1") 2 ([("c1", { completed := 1, claimed := false })])
    { completed := 1, claimed := false } (by decide) (by decide)

/-- C3 amended: the `claimed` flag never reverses (a claimed record stays
claimed through further reports), but the `false → true` transition is
performed by the progress handler itself: a report whose unclamped sum
reaches the challenge amount returns the record with `claimed = true`. -/
theorem C3_theorem (st : ChallengeStore) (w c : String) (delta : Int)
    (ch : Challenge) (wmap : List (String × ProgressRecord)) (pp : ProgressRecord)
    (hch : st.challenges.find? (fun x => x.id == c) = some ch)
    (hw : lookupA st.playerProgress w = some wmap)
    (hc : lookupA wmap c = some pp) :
    ((progressV1 st w c delta).2 =
      HttpResult.ok (if (ch.amount : Int) ≤ pp.completed + delta ∧ pp.claimed = false
        then { completed := pp.completed + delta, claimed := true }
        else { completed := pp.completed + delta, claimed := pp.claimed }))
    ∧ (pp.claimed = true →
        (progressV1 st w c delta).2 =
          HttpResult.ok { completed := pp.completed + delta, claimed := true })
    ∧ (pp.claimed = false → (ch.amount : Int) ≤ pp.completed + delta →
        (progressV1 st w c delta).2 =
          HttpResult.ok { completed := pp.completed + delta, claimed := true }) := by
  have h1 : (progressV1 st w c delta).2 =
      HttpResult.ok (if (ch.amount : Int) ≤ pp.completed + delta ∧ pp.claimed = false
        then { completed := pp.completed + delta, claimed := true }
        else { completed := pp.completed + delta, claimed := pp.claimed }) := by
    simp [progressV1, ensureWallet, walletMap, hch, hw, hc]
  refine ⟨h1, ?_, ?_⟩
  · intro h
    rw [h1]
    simp [h]
  · intro h h2
    rw [h1]
    simp [h, h2]

/-- C3 witness: concrete run of the amended statement. -/
theorem C3_theorem_witness :
    ((progressV1
        { currentDate := "dw3"
          challenges := [{ id := "c1", verb := "Defeat", target := "enemies",
                           amount := 3, reward := 30, badgeIndex := 0 }]
          playerProgress := [("W1", [("c1", { completed := 2, claimed := false })])]
          sessions := [] } ("W1") ("c1") 1).2 =
      HttpResult.ok
        (if ((3 : Nat) : Int) ≤ (2 : Int) + 1 ∧ false = false
          then { completed := (2 : Int) + 1, claimed := true }
          else { completed := (2 : Int) + 1, claimed := false }))
    ∧ ((false = true) →
        (progressV1
          { currentDate := "dw3"
            challenges := [{ id := "c1", verb := "Defeat", target := "enemies",
                             amount := 3, reward := 30, badgeIndex := 0 }]
            playerProgress := [("W1", [("c1", { completed := 2, claimed := false })])]
            sessions := [] } ("W1") ("c1") 1).2 =
          HttpResult.ok { completed := (2 : Int) + 1, claimed := true })
    ∧ ((false = false) → ((3 : Nat) : Int) ≤ (2 : Int) + 1 →
        (progressV1
          { currentDate := "dw3"
            challenges := [{ id := "c1", verb := "Defeat", target := "enemies",
                             amount := 3, reward := 30, badgeIndex := 0 }]
            playerProgress := [("W1", [("c1", { completed := 2, claimed := false })])]
            sessions := [] } ("W1") ("c1") 1).2 =
          HttpResult.ok { completed := (2 : Int) + 1, claimed := true }) :=
  C3_theorem
    { currentDate := "dw3"
      challenges := [{ id := "c1", verb := "Defeat", target := "enemies",
                       amount := 3, reward := 30, badgeIndex := 0 }]
      playerProgress := [("W1", [("c1", { completed := 2, claimed := false })])]
      sessions := [] }
    ("W1") ("c1") 1
    { id := "c1", verb := "Defeat", target := "enemies",
      amount := 3, reward := 30, badgeIndex := 0 }
    ([("c1", { completed := 2, claimed := false })])
    { completed := 2, claimed := false } (by decide) (by decide) (by decide)

/-- C4 amended: crossing a day boundary, the rotation check clears all
progress records and installs a fresh batch of exactly 3 challenges, but the
session map is left untouched, so pre-rotation tokens keep resolving. -/
theorem C4_theorem (st : ChallengeStore) (today : String) (now : Nat) (r : Nat → Nat)
    (h : st.currentDate ≠ today) :
    (rotateChallenges st today now r).playerProgress = []
    ∧ (rotateChallenges st today now r).challenges = generateDailyChallenges now r
    ∧ (rotateChallenges st today now r).challenges.length = 3
    ∧ (rotateChallenges st today now r).sessions = st.sessions := by
  have hb : (st.currentDate == today) = false := by
    simpa using h
  simp [rotateChallenges, hb, generateDailyChallenges]

/-- C4 witness: concrete run of the amended statement. -/
theorem C4_theorem_witness :
    (rotateChallenges
      { currentDate := "Mon Jan 05 2026", challenges := [],
        playerProgress := [], sessions := [] }
      ("Tue Jan 06 2026") 9 (fun _ => 1)).playerProgress = []
    ∧ (rotateChallenges
      { currentDate := "Mon Jan 05 2026", challenges := [],
        playerProgress := [], sessions := [] }
      ("Tue Jan 06 2026") 9 (fun _ => 1)).challenges
        = generateDailyChallenges 9 (fun _ => 1)
    ∧ (rotateChallenges
      { currentDate := "Mon Jan 05 2026", challenges := [],
        playerProgress := [], sessions := [] }
      ("Tue Jan 06 2026") 9 (fun _ => 1)).challenges.length = 3
    ∧ (rotateChallenges
      { currentDate := "Mon Jan 05 2026", challenges := [],
        playerProgress := [], sessions := [] }
      ("Tue Jan 06 2026") 9 (fun _ => 1)).sessions
        = ChallengeStore.sessions
            { currentDate := "Mon Jan 05 2026", challenges := [],
              playerProgress := [], sessions := [] } :=
  C4_theorem
    { currentDate := "Mon Jan 05 2026", challenges := [],
      playerProgress := [], sessions := [] }
    ("Tue Jan 06 2026") 9 (fun _ => 1) (by decide)

/-- C5: the rotation check is idempotent within a calendar day — on a state
whose stored date equals today it is a no-op, a second check right after any
check is a no-op, and two same-day `GET /challenges` calls answer the
identical array. -/
theorem C5_theorem (st : ChallengeStore) (today : String) (now now2 : Nat)
    (r r2 : Nat → Nat) (h : st.currentDate = today) :
    rotateChallenges st today now r = st
    ∧ rotateChallenges (rotateChallenges st today now r) today now2 r2
        = rotateChallenges st today now r
    ∧ (getChallenges (getChallenges st today now r).1 today now2 r2).2
        = (getChallenges st today now r).2 := by
  have hb : (st.currentDate == today) = true := by
    simpa using h
  simp [rotateChallenges, getChallenges, hb]

/-- C5 witness: concrete run. -/
theorem C5_theorem_witness :
    rotateChallenges
      { currentDate := "Wed Jan 07 2026", challenges := [],
        playerProgress := [], sessions := [] }
      ("Wed Jan 07 2026") 3 (fun _ => 0)
      = { currentDate := "Wed Jan 07 2026", challenges := [],
          playerProgress := [], sessions := [] }
    ∧ rotateChallenges
        (rotateChallenges
          { currentDate := "Wed Jan 07 2026", challenges := [],
            playerProgress := [], sessions := [] }
          ("Wed Jan 07 2026") 3 (fun _ => 0))
        ("Wed Jan 07 2026") 4 (fun _ => 2)
      = rotateChallenges
          { currentDate := "Wed Jan 07 2026", challenges := [],
            playerProgress := [], sessions := [] }
          ("Wed Jan 07 2026") 3 (fun _ => 0)
    ∧ (getChallenges
        (getChallenges
          { currentDate := "Wed Jan 07 2026", challenges := [],
            playerProgress := [], sessions := [] }
          ("Wed Jan 07 2026") 3 (fun _ => 0)).1
        ("Wed Jan 07 2026") 4 (fun _ => 2)).2
      = (getChallenges
          { currentDate := "Wed Jan 07 2026", challenges := [],
            playerProgress := [], sessions := [] }
          ("Wed Jan 07 2026") 3 (fun _ => 0)).2 :=
  C5_theorem
    { currentDate := "Wed Jan 07 2026", challenges := [],
      playerProgress := [], sessions := [] }
    ("Wed Jan 07 2026") 3 4 (fun _ => 0) (fun _ => 2) (by decide)

/-- C6: `verifySignature` fails closed — an undecodable public key, a faulting
byte-level verification, or a failed verification each yield `false`, never an
uncaught fault — and a `POST /verify-session` whose verification does not
succeed leaves the store unchanged and answers with an error, creating no
session. -/
theorem C6_theorem (env : CryptoEnv) (st : ChallengeStore) (nowIso : String)
    (req : VerifyReq)
    (h : env.decodePublicKey req.walletAddress = none
      ∨ (∃ pk e, env.decodePublicKey req.walletAddress = some pk
          ∧ env.naclVerify (env.encode (sessionMessage req.sessionToken))
              (env.parseSignature req.signature) pk = Except.error e)
      ∨ (∃ pk, env.decodePublicKey req.walletAddress = some pk
          ∧ env.naclVerify (env.encode (sessionMessage req.sessionToken))
              (env.parseSignature req.signature) pk = Except.ok false)) :
    verifySignature env (sessionMessage req.sessionToken) req.signature
        req.walletAddress = false
    ∧ (verifySession env st nowIso req).1 = st
    ∧ (verifySession env st nowIso req).2.isErr = true := by
  rcases h with h | ⟨pk, e, hpk, hv⟩ | ⟨pk, hpk, hv⟩
  · simp [verifySignature, verifySession, h, HttpResult.isErr]
  · simp [verifySignature, verifySession, hpk, hv, HttpResult.isErr]
  · simp [verifySignature, verifySession, hpk, hv, HttpResult.isErr]

/-- C6 witness: a public key that fails to decode. -/
theorem C6_theorem_witness :
    verifySignature
      { decodePublicKey := fun _ => none, parseSignature := fun _ => [],
        encode := fun _ => [], naclVerify := fun _ _ _ => Except.ok true }
      (sessionMessage ("T")) ("sig") ("W") = false
    ∧ (verifySession
        { decodePublicKey := fun _ => none, parseSignature := fun _ => [],
          encode := fun _ => [], naclVerify := fun _ _ _ => Except.ok true }
        { currentDate := "d6", challenges := [], playerProgress := [], sessions := [] }
        ("t0")
        { sessionToken := "T", walletAddress := "W", signature := "sig",
          accessToken := "a" }).1
      = { currentDate := "d6", challenges := [], playerProgress := [], sessions := [] }
    ∧ (verifySession
        { decodePublicKey := fun _ => none, parseSignature := fun _ => [],
          encode := fun _ => [], naclVerify := fun _ _ _ => Except.ok true }
        { currentDate := "d6", challenges := [], playerProgress := [], sessions := [] }
        ("t0")
        { sessionToken := "T", walletAddress := "W", signature := "sig",
          accessToken := "a" }).2.isErr = true :=
  C6_theorem
    { decodePublicKey := fun _ => none, parseSignature := fun _ => [],
      encode := fun _ => [], naclVerify := fun _ _ _ => Except.ok true }
    { currentDate := "d6", challenges := [], playerProgress := [], sessions := [] }
    ("t0")
    { sessionToken := "T", walletAddress := "W", signature := "sig",
      accessToken := "a" }
    (Or.inl rfl)

/-- C10 amended: on successful verification, `POST /verify-session` stores the
session under the client-supplied `sessionToken` taken from the request body
(no server-minted token exists) and answers success; on failure it creates
nothing and answers an error. -/
theorem C10_theorem (env : CryptoEnv) (st : ChallengeStore) (nowIso : String)
    (req : VerifyReq) (pk : List Nat)
    (hpk : env.decodePublicKey req.walletAddress = some pk)
    (hv : env.naclVerify (env.encode (sessionMessage req.sessionToken))
        (env.parseSignature req.signature) pk = Except.ok true) :
    (verifySession env st nowIso req).1.sessions
      = insertA st.sessions req.sessionToken
          { walletAddress := req.walletAddress, verifiedAt := nowIso,
            signature := req.signature, accessToken := req.accessToken }
    ∧ (verifySession env st nowIso req).2 = HttpResult.ok true := by
  simp [verifySession, hpk, hv]

/-- C10 witness: concrete successful confirmation. -/
theorem C10_theorem_witness :
    (verifySession
      { decodePublicKey := fun _ => some [2], parseSignature := fun _ => [],
        encode := fun _ => [], naclVerify := fun _ _ _ => Except.ok true }
      { currentDate := "d10", challenges := [], playerProgress := [], sessions := [] }
      ("t2")
      { sessionToken := "TOKC", walletAddress := "W", signature := "s",
        accessToken := "a" }).1.sessions
      = insertA ([])
          ("TOKC")
          { walletAddress := "W", verifiedAt := "t2",
            signature := "s", accessToken := "a" }
    ∧ (verifySession
      { decodePublicKey := fun _ => some [2], parseSignature := fun _ => [],
        encode := fun _ => [], naclVerify := fun _ _ _ => Except.ok true }
      { currentDate := "d10", challenges := [], playerProgress := [], sessions := [] }
      ("t2")
      { sessionToken := "TOKC", walletAddress := "W", signature := "s",
        accessToken := "a" }).2 = HttpResult.ok true :=
  C10_theorem
    { decodePublicKey := fun _ => some [2], parseSignature := fun _ => [],
      encode := fun _ => [], naclVerify := fun _ _ _ => Except.ok true }
    { currentDate := "d10", challenges := [], playerProgress := [], sessions := [] }
    ("t2")
    { sessionToken := "TOKC", walletAddress := "W", signature := "s",
      accessToken := "a" }
    ([2]) rfl rfl
